import Mathlib

/-!
Verification of the ModelVault model-detail view (`src/frontend/Model.tsx`).

The file embeds, shallowly and faithfully to the TypeScript source:

* the image-gallery selection arithmetic (`nextImage`, `previousImage`,
  thumbnail `setSelectedImage(index)`), including JavaScript's remainder
  semantics where `x % 0` is `NaN` (modeled as `none`);
* the React component state of the `Model` view (`useState` for the fetched
  record, the mounted `ImageGallery` with its `useState(0)` selection and the
  keydown listener registered by the `useEffect` with an empty dependency
  list, hence permanently closing over the first render's `model` prop);
* the `getModels` fetch handler with its `.ok` check and `.catch` logging.

React semantics used by the embedding (standard, and what the source relies
on): `useState` initializers run only when a component mounts; re-rendering a
component at the same position with new props preserves its state (the source
passes no `key` to `ImageGallery`, so it is never remounted while a model
stays loaded); an effect with `[]` dependencies runs once at mount and its
cleanup runs at unmount.
-/

namespace ModelVault

/-- JavaScript's remainder operator on integral numbers: truncated remainder
(sign of the dividend), and `x % 0` is `NaN`, modeled as `none`. -/
def jsRem (a b : Int) : Option Int :=
  if b = 0 then none else some (Int.tmod a b)

/-- The model record as far as the gallery is concerned: the ordered image
list of `DetailedModelResponse` (`model.images`). -/
structure ModelRecord where
  images : List String
deriving DecidableEq, Repr

/-- `model.images.length`. -/
def imageCount (m : ModelRecord) : Int := m.images.length

/-- A gallery selection value: `some i` for an integral index, `none` for
`NaN` (JavaScript arithmetic on `NaN` stays `NaN`). -/
abbrev Selection := Option Int

/-- Source lines 44-46: `setSelectedImage((prev) => (prev + 1) % model.images.length)`. -/
def nextImage (len : Int) (s : Selection) : Selection :=
  s.bind (fun p => jsRem (p + 1) len)

/-- Source lines 48-50:
`setSelectedImage((prev) => (prev - 1 + model.images.length) % model.images.length)`. -/
def previousImage (len : Int) (s : Selection) : Selection :=
  s.bind (fun p => jsRem (p - 1 + len) len)

/-- Source line 135: thumbnail `onClick={() => setSelectedImage(index)}`. -/
def selectIndex (j : Int) (_s : Selection) : Selection := some j

/-- One user operation on the gallery selection: next button / ArrowRight,
previous button / ArrowLeft, or a click on thumbnail number `j`. -/
inductive GalleryOp
  | next
  | prev
  | select (j : Int)
deriving DecidableEq, Repr

/-- Apply one operation to the selection, for a gallery over `len` images. -/
def stepOp (len : Int) (s : Selection) : GalleryOp → Selection
  | .next => nextImage len s
  | .prev => previousImage len s
  | .select j => selectIndex j s

/-- Run a sequence of operations. -/
def runOps (len : Int) (s : Selection) : List GalleryOp → Selection
  | [] => s
  | op :: ops => runOps len (stepOp len s op) ops

/-- An operation the rendered page can actually produce: thumbnails exist
exactly for the indices `0 ≤ j < len` (source lines 132-135 map over
`model.images`). -/
def validOp (len : Int) : GalleryOp → Bool
  | .select j => decide (0 ≤ j) && decide (j < len)
  | _ => true

/-- `nextImage` applied `k` times (ArrowRight held down, say). -/
def iterNext (len : Int) : Nat → Selection → Selection
  | 0, s => s
  | k + 1, s => iterNext len k (nextImage len s)


/-! ## The `Model` view and the mounted `ImageGallery`

State of one `Model` route component and, when rendered, its mounted
`ImageGallery` child, as React keeps it between events. -/

/-- A mounted `ImageGallery` instance.

* `selectedImage` is its `useState<number>(0)` cell (line 41).
* `handlerModel` is the `model` prop captured by the keydown listener: the
  `useEffect` on lines 69-80 has an empty dependency list, so the listener
  registered at mount closes over the first render's `nextImage` /
  `previousImage`, which in turn close over the first render's `model`.
  The effect never re-runs, so this closure is fixed for the whole mount. -/
structure GalleryMount where
  selectedImage : Selection
  handlerModel : ModelRecord
deriving DecidableEq, Repr

/-- State of the `Model` route component.

* `model` is its `useState<DetailedModelResponse>()` cell (line 296),
  `none` before any successful fetch.
* `gallery` is the mounted `ImageGallery` child; the render is gated by
  `{model && ...}` (line 322), so the child is mounted exactly while a
  model is loaded. -/
structure ModelViewState where
  model : Option ModelRecord
  gallery : Option GalleryMount
deriving DecidableEq, Repr

/-- The view right after mounting: no model fetched yet, nothing rendered. -/
def initialViewState : ModelViewState := ⟨none, none⟩

/-- React reconciliation after a render of `Model`: the `{model && ...}` gate
mounts `ImageGallery` (running `useState(0)` and the keydown effect, which
captures the current model) when a model appears, unmounts it when the model
disappears, and otherwise leaves the mounted child's state untouched — the
source passes no `key` to `ImageGallery` (line 326), so a mere change of the
`model` prop does not remount it. -/
def reconcile (s : ModelViewState) : ModelViewState :=
  match s.model, s.gallery with
  | some m, none => { s with gallery := some ⟨some 0, m⟩ }
  | none, some _ => { s with gallery := none }
  | _, _ => s

/-- Outcome of the `fetch` on line 299: either the promise rejects (network
error) or a response arrives with a status and a JSON-parse result for the
body (`none` models a body `response.json()` rejects on). -/
inductive FetchResult
  | networkError
  | response (status : Nat) (body : Option ModelRecord)
deriving DecidableEq, Repr

/-- `response.ok`: status in the range 200-299. -/
def responseOk (status : Nat) : Bool :=
  decide (200 ≤ status) && decide (status < 300)

/-- `getModels` (lines 298-314) acting on the `model` state cell. Returns the
new cell value and whether `console.error` ran. A non-`ok` status throws, a
parse failure rejects, and a network error rejects; all three land in the
`.catch`, which logs and sets nothing. Only a parsed body of an `ok` response
reaches `setModel`. -/
def getModels (current : Option ModelRecord) :
    FetchResult → Option ModelRecord × Bool
  | .networkError => (current, true)
  | .response status body =>
    if responseOk status then
      match body with
      | some m => (some m, false)
      | none => (current, true)
    else (current, true)

/-- `r` is one of the failure outcomes: network error, non-2xx status, or
JSON parse failure. -/
def isFetchFailure : FetchResult → Bool
  | .networkError => true
  | .response status body => !responseOk status || body.isNone

/-- A fetch completing while the view is up: run `getModels` on the `model`
cell, then re-render. Returns the new view state and whether the failure was
logged. -/
def fetchEvent (s : ModelViewState) (r : FetchResult) : ModelViewState × Bool :=
  let res := getModels s.model r
  (reconcile { s with model := res.1 }, res.2)

/-- The keys the handler on lines 70-76 distinguishes. -/
inductive Key
  | arrowLeft
  | arrowRight
  | other
deriving DecidableEq, Repr

/-- A `keydown` dispatched on `window`. If the gallery is mounted its listener
is registered and runs the mount-time `previousImage`/`nextImage` closures,
whose image count comes from `handlerModel`; if it is not mounted the cleanup
on line 79 has removed the listener and nothing happens. -/
def dispatchKey (s : ModelViewState) (k : Key) : ModelViewState :=
  match s.gallery with
  | none => s
  | some g =>
    match k with
    | .arrowRight =>
        ⟨s.model,
          some ⟨nextImage (imageCount g.handlerModel) g.selectedImage,
            g.handlerModel⟩⟩
    | .arrowLeft =>
        ⟨s.model,
          some ⟨previousImage (imageCount g.handlerModel) g.selectedImage,
            g.handlerModel⟩⟩
    | .other => s

/-- Clicking the next-image button (line 113): the `onClick` closure is from
the latest render, so it uses the current `model` prop's image count. -/
def clickNextButton (s : ModelViewState) : ModelViewState :=
  match s.model, s.gallery with
  | some m, some g =>
      ⟨s.model, some ⟨nextImage (imageCount m) g.selectedImage, g.handlerModel⟩⟩
  | _, _ => s

/-- Clicking the previous-image button (line 106). -/
def clickPrevButton (s : ModelViewState) : ModelViewState :=
  match s.model, s.gallery with
  | some m, some g =>
      ⟨s.model, some ⟨previousImage (imageCount m) g.selectedImage, g.handlerModel⟩⟩
  | _, _ => s

/-- Clicking thumbnail `j` (line 135). -/
def clickThumbnail (s : ModelViewState) (j : Int) : ModelViewState :=
  match s.model, s.gallery with
  | some _, some g =>
      ⟨s.model, some ⟨selectIndex j g.selectedImage, g.handlerModel⟩⟩
  | _, _ => s

/-- Navigating away from the route: the component tree is destroyed, and the
keydown effect's cleanup (line 79) removes the listener. -/
def unmountView (_s : ModelViewState) : ModelViewState := initialViewState

/-- The `src` path rendered by the main image (line 100):
`model.images[selectedImage]`. `none` models JavaScript's `undefined`, which
the template would stringify into the URL — for a `NaN` or out-of-range
index, or an empty image list, there is no guard. -/
def mainImageSrc (m : ModelRecord) (s : Selection) : Option String :=
  match s with
  | none => none
  | some i => if i < 0 then none else m.images[i.toNat]?

/-- A model with no images. -/
def emptyModel : ModelRecord := ⟨[]⟩

/-- A three-image model, the `[A, B, C]` of the scenarios. -/
def modelABC : ModelRecord := ⟨["a.png", "b.png", "c.png"]⟩

/-- A one-image model, used as the navigation target. -/
def modelX : ModelRecord := ⟨["x.png"]⟩


/- Characterization lemmas for the wraparound arithmetic, `0 < len`. -/

theorem jsRem_of_pos {a b : Int} (ha : 0 ≤ a) (hb : 0 < b) :
    jsRem a b = some (a % b) := by
  unfold jsRem
  rw [if_neg (by omega), Int.tmod_eq_emod ha (le_of_lt hb)]

theorem nextImage_char {len i : Int} (hlen : 0 < len) (h0 : 0 ≤ i) :
    nextImage len (some i) = some ((i + 1) % len) := by
  show jsRem (i + 1) len = some ((i + 1) % len)
  exact jsRem_of_pos (by omega) hlen

theorem previousImage_char {len i : Int} (hlen : 0 < len) (h0 : 0 ≤ i) :
    previousImage len (some i) = some ((i - 1 + len) % len) := by
  show jsRem (i - 1 + len) len = some ((i - 1 + len) % len)
  exact jsRem_of_pos (by omega) hlen

theorem nextImage_eq_ite {len i : Int} (hlen : 0 < len) (h0 : 0 ≤ i)
    (hi : i < len) :
    nextImage len (some i) = some (if i = len - 1 then 0 else i + 1) := by
  rw [nextImage_char hlen h0]
  by_cases h : i = len - 1
  · subst h
    simp [Int.sub_add_cancel]
  · rw [if_neg h, Int.emod_eq_of_lt (by omega) (by omega)]

theorem previousImage_eq_ite {len i : Int} (hlen : 0 < len) (h0 : 0 ≤ i)
    (_hi : i < len) :
    previousImage len (some i) = some (if i = 0 then len - 1 else i - 1) := by
  rw [previousImage_char hlen h0]
  by_cases h : i = 0
  · subst h
    rw [if_pos rfl, Int.zero_sub, Int.emod_eq_of_lt (by omega) (by omega)]
    congr 1
    omega
  · rw [if_neg h, Int.add_emod_self, Int.emod_eq_of_lt (by omega) (by omega)]

theorem stepOp_mem_range {len i : Int} (hlen : 0 < len) (h0 : 0 ≤ i)
    (_hi : i < len) (op : GalleryOp) (hop : validOp len op = true) :
    ∃ j, stepOp len (some i) op = some j ∧ 0 ≤ j ∧ j < len := by
  cases op with
  | next =>
      refine ⟨(i + 1) % len, ?_, ?_, ?_⟩
      · exact nextImage_char hlen h0
      · exact Int.emod_nonneg _ (by omega)
      · exact Int.emod_lt_of_pos _ hlen
  | prev =>
      refine ⟨(i - 1 + len) % len, ?_, ?_, ?_⟩
      · exact previousImage_char hlen h0
      · exact Int.emod_nonneg _ (by omega)
      · exact Int.emod_lt_of_pos _ hlen
  | select j =>
      simp only [validOp, Bool.and_eq_true, decide_eq_true_eq] at hop
      exact ⟨j, rfl, hop.1, hop.2⟩

theorem runOps_mem_range {len : Int} (hlen : 0 < len) (ops : List GalleryOp)
    (hops : ∀ op ∈ ops, validOp len op = true) :
    ∀ i : Int, 0 ≤ i → i < len →
      ∃ j, runOps len (some i) ops = some j ∧ 0 ≤ j ∧ j < len := by
  induction ops with
  | nil => exact fun i h0 hi => ⟨i, rfl, h0, hi⟩
  | cons op ops ih =>
      intro i h0 hi
      obtain ⟨j, hj, hj0, hjlen⟩ :=
        stepOp_mem_range hlen h0 hi op (hops op (by simp))
      have := ih (fun o ho => hops o (by simp [ho])) j hj0 hjlen
      rwa [runOps, hj]

theorem iterNext_formula {len : Int} (hlen : 0 < len) :
    ∀ (k : Nat) (i : Int), 0 ≤ i → i < len →
      iterNext len k (some i) = some ((i + k) % len) := by
  intro k
  induction k with
  | zero =>
      intro i h0 hi
      simp [iterNext, Int.emod_eq_of_lt h0 hi]
  | succ k ih =>
      intro i h0 hi
      rw [iterNext, nextImage_char hlen h0]
      rw [ih ((i + 1) % len) (Int.emod_nonneg _ (by omega))
        (Int.emod_lt_of_pos _ hlen)]
      congr 1
      rw [Int.add_emod, Int.emod_emod_of_dvd _ dvd_rfl, ← Int.add_emod]
      congr 1
      push_cast
      ring
theorem nextImage_last {len : Int} (hlen : 0 < len) :
    nextImage len (some (len - 1)) = some 0 := by
  rw [nextImage_char hlen (by omega), Int.sub_add_cancel, Int.emod_self]

theorem nextImage_mid {len i : Int} (hlen : 0 < len) (h0 : 0 ≤ i)
    (hi : i + 1 < len) : nextImage len (some i) = some (i + 1) := by
  rw [nextImage_char hlen h0, Int.emod_eq_of_lt (by omega) (by omega)]

theorem previousImage_zero {len : Int} (hlen : 0 < len) :
    previousImage len (some 0) = some (len - 1) := by
  rw [previousImage_char hlen le_rfl, Int.emod_eq_of_lt (by omega) (by omega)]
  congr 1
  omega

theorem previousImage_mid {len i : Int} (hlen : 0 < len) (h1 : 1 ≤ i)
    (hi : i < len) : previousImage len (some i) = some (i - 1) := by
  rw [previousImage_char hlen (by omega), Int.add_emod_self,
    Int.emod_eq_of_lt (by omega) (by omega)]

/- Lemmas about the fetch handler. -/

theorem getModels_of_failure (current : Option ModelRecord) (r : FetchResult)
    (h : isFetchFailure r = true) : getModels current r = (current, true) := by
  cases r with
  | networkError => rfl
  | response status body =>
      simp only [getModels]
      by_cases hok : responseOk status = true
      · rw [if_pos hok]
        cases body with
        | none => rfl
        | some m => simp [isFetchFailure, hok] at h
      · rw [if_neg hok]

theorem getModels_isSome (m : ModelRecord) (r : FetchResult) :
    ((getModels (some m) r).1).isSome = true := by
  cases r with
  | networkError => rfl
  | response status body =>
      simp only [getModels]
      by_cases hok : responseOk status = true
      · rw [if_pos hok]
        cases body <;> rfl
      · rw [if_neg hok]
        rfl

theorem reconcile_gallery_of_isSome {mo : Option ModelRecord}
    {g : GalleryMount} (h : mo.isSome = true) :
    (reconcile ⟨mo, some g⟩).gallery = some g := by
  obtain ⟨m, rfl⟩ := Option.isSome_iff_exists.mp h
  rfl

/-! ## The claims -/

/-- C1: for every image count `n ≥ 1` and every finite sequence of
next / previous / thumbnail-click operations starting from the initial
selection 0, the resulting `selectedIndex` is an integer in `[0, n)`
(thumbnails exist exactly for the indices `0 ≤ j < n`). -/
theorem selectedIndex_always_in_range (len : Int) (ops : List GalleryOp)
    (hlen : 1 ≤ len) (hops : ∀ op ∈ ops, validOp len op = true) :
    ∃ i, runOps len (some 0) ops = some i ∧ 0 ≤ i ∧ i < len :=
  runOps_mem_range (by omega) ops hops 0 le_rfl (by omega)

theorem selectedIndex_always_in_range_witness :
    ∃ i, runOps 3 (some 0)
        [GalleryOp.next, GalleryOp.next, GalleryOp.next, GalleryOp.select 1,
          GalleryOp.prev, GalleryOp.prev] = some i ∧ 0 ≤ i ∧ i < 3 :=
  selectedIndex_always_in_range 3 _ (by decide) (by decide)

/-- C2: with `n > 0` images and current index `i ∈ [0, n)`, `nextImage`
advances the index by exactly one, wrapping to 0 from the last image, and the
result is a valid index in `[0, n)`. -/
theorem nextImage_spec (len i : Int) (hlen : 0 < len) (h0 : 0 ≤ i)
    (hi : i < len) :
    nextImage len (some i) = some (if i = len - 1 then 0 else i + 1) ∧
    ∃ j, nextImage len (some i) = some j ∧ 0 ≤ j ∧ j < len := by
  refine ⟨nextImage_eq_ite hlen h0 hi,
    (i + 1) % len, nextImage_char hlen h0, ?_, ?_⟩
  · exact Int.emod_nonneg _ (by omega)
  · exact Int.emod_lt_of_pos _ hlen

theorem nextImage_spec_witness :
    (nextImage 3 (some 2) = some (if (2 : Int) = 3 - 1 then 0 else 2 + 1) ∧
      ∃ j, nextImage 3 (some 2) = some j ∧ 0 ≤ j ∧ j < 3) :=
  nextImage_spec 3 2 (by decide) (by decide) (by decide)

/-- C3: with `n > 0` images and current index `i ∈ [0, n)`, `previousImage`
decrements the index by exactly one, wrapping to `n - 1` from index 0, and
the result is a valid index in `[0, n)`. -/
theorem previousImage_spec (len i : Int) (hlen : 0 < len) (h0 : 0 ≤ i)
    (hi : i < len) :
    previousImage len (some i) = some (if i = 0 then len - 1 else i - 1) ∧
    ∃ j, previousImage len (some i) = some j ∧ 0 ≤ j ∧ j < len := by
  refine ⟨previousImage_eq_ite hlen h0 hi,
    (i - 1 + len) % len, previousImage_char hlen h0, ?_, ?_⟩
  · exact Int.emod_nonneg _ (by omega)
  · exact Int.emod_lt_of_pos _ hlen

theorem previousImage_spec_witness :
    (previousImage 3 (some 0) = some (if (0 : Int) = 0 then 3 - 1 else 0 - 1) ∧
      ∃ j, previousImage 3 (some 0) = some j ∧ 0 ≤ j ∧ j < 3) :=
  previousImage_spec 3 0 (by decide) (by decide) (by decide)

/-- C4: claim check at `n = 0` — the code does NOT no-op and is NOT guarded:
`nextImage` and `previousImage` evaluate `x % 0`, which in JavaScript is
`NaN` (here `none`), and the main-image render indexes the empty image list,
yielding `undefined` (here `none`). -/
theorem empty_model_wraparound_is_nan :
    nextImage (imageCount emptyModel) (some 0) = none ∧
    previousImage (imageCount emptyModel) (some 0) = none ∧
    nextImage (imageCount emptyModel) (some 0) ≠ some 0 ∧
    mainImageSrc emptyModel (some 0) = none := by decide

/-- C5: for every image count `n ≥ 1` and index `i ∈ [0, n)`, `nextImage`
followed by `previousImage` returns the selection to `i`, and so does
`previousImage` followed by `nextImage`. -/
theorem next_previous_inverse (len i : Int) (hlen : 1 ≤ len) (h0 : 0 ≤ i)
    (hi : i < len) :
    previousImage len (nextImage len (some i)) = some i ∧
    nextImage len (previousImage len (some i)) = some i := by
  have hlen' : 0 < len := by omega
  constructor
  · by_cases h : i = len - 1
    · subst h
      rw [nextImage_last hlen', previousImage_zero hlen']
    · rw [nextImage_mid hlen' h0 (by omega),
        previousImage_mid hlen' (by omega) (by omega)]
      congr 1
      omega
  · by_cases h : i = 0
    · subst h
      rw [previousImage_zero hlen', nextImage_last hlen']
    · rw [previousImage_mid hlen' (by omega) hi,
        nextImage_mid hlen' (by omega) (by omega)]
      congr 1
      omega

theorem next_previous_inverse_witness :
    previousImage 3 (nextImage 3 (some 2)) = some 2 ∧
    nextImage 3 (previousImage 3 (some 2)) = some 2 :=
  next_previous_inverse 3 2 (by decide) (by decide) (by decide)

/-- C6: applying `nextImage` exactly `n` times from any starting index
`i ∈ [0, n)` returns the selection to `i` (full-cycle wraparound). -/
theorem next_full_cycle (len i : Int) (hlen : 1 ≤ len) (h0 : 0 ≤ i)
    (hi : i < len) :
    iterNext len len.toNat (some i) = some i := by
  have hlen' : 0 < len := by omega
  rw [iterNext_formula hlen' len.toNat i h0 hi,
    Int.toNat_of_nonneg (by omega), Int.add_emod_self,
    Int.emod_eq_of_lt h0 hi]

theorem next_full_cycle_witness :
    iterNext 3 (Int.toNat 3) (some 1) = some 1 :=
  next_full_cycle 3 1 (by decide) (by decide) (by decide)

/-- C7: claim check — navigating to a different model does NOT reset
`selectedIndex`. Starting empty, the fetch delivers the 3-image model (the
gallery mounts at index 0), two next-clicks reach index 2, then a later fetch
delivers a 1-image model: `ImageGallery` is never remounted (no `key`, no
reset effect), so `selectedIndex` stays 2, out of range for the new model,
and the main image would render `undefined`. -/
theorem model_change_keeps_stale_index :
    (fetchEvent (clickNextButton (clickNextButton
        (fetchEvent initialViewState (.response 200 (some modelABC))).1))
      (.response 200 (some modelX))).1
      = ⟨some modelX, some ⟨some 2, modelABC⟩⟩ ∧
    ¬ ((2 : Int) < imageCount modelX) ∧
    mainImageSrc modelX (some 2) = none := by decide

/-- C8: every failing fetch outcome (network error, non-2xx status, JSON
parse failure) is caught by the `.catch` (which logs it — the `true` flag),
sets no model, mounts no gallery, and leaves the view in the initial
"no model loaded" state; `getModels` is total, so no exception escapes. -/
theorem fetch_failure_leaves_view_unloaded (r : FetchResult)
    (h : isFetchFailure r = true) :
    fetchEvent initialViewState r = (initialViewState, true) := by
  have hg : getModels none r = (none, true) := getModels_of_failure none r h
  simp only [fetchEvent, initialViewState] at hg ⊢
  rw [hg]
  rfl

theorem fetch_failure_leaves_view_unloaded_witness :
    fetchEvent initialViewState (FetchResult.response 404 none)
      = (initialViewState, true) :=
  fetch_failure_leaves_view_unloaded _ (by decide)

/-- C9: while the gallery is mounted (its keydown listener holding the
mount-time model, which is the model on display), dispatching ArrowRight
changes the view exactly as clicking the next-image button and ArrowLeft
exactly as the previous-image button; after the view unmounts, the cleanup
has removed the listener, so key dispatches change nothing. -/
theorem keyboard_matches_buttons_until_unmount :
    (∀ s g, s.gallery = some g → s.model = some g.handlerModel →
      dispatchKey s Key.arrowRight = clickNextButton s ∧
      dispatchKey s Key.arrowLeft = clickPrevButton s) ∧
    (∀ s k, dispatchKey (unmountView s) k = unmountView s) := by
  constructor
  · rintro ⟨mo, ga⟩ g hg hm
    dsimp only at hg hm
    subst hg
    subst hm
    exact ⟨rfl, rfl⟩
  · intro s k
    rfl

theorem keyboard_matches_buttons_until_unmount_witness :
    (dispatchKey ⟨some modelABC, some ⟨some 0, modelABC⟩⟩ Key.arrowRight
      = clickNextButton ⟨some modelABC, some ⟨some 0, modelABC⟩⟩) ∧
    dispatchKey (unmountView ⟨some modelABC, some ⟨some 0, modelABC⟩⟩)
        Key.arrowRight
      = unmountView ⟨some modelABC, some ⟨some 0, modelABC⟩⟩ :=
  ⟨(keyboard_matches_buttons_until_unmount.1 _ _ rfl rfl).1,
    keyboard_matches_buttons_until_unmount.2 _ _⟩

/-- C10: the keydown listener registered once at mount (empty dependency
list) closes over the mount-time model: arrow keys always wrap modulo
`handlerModel`'s image count; a later fetch that replaces the model prop
leaves the mounted gallery and its captured closure untouched; and at a
concrete state whose prop changed to a model with a different image count,
the key result differs from the current-model button result. -/
theorem keydown_uses_mount_time_count :
    (∀ s g, s.gallery = some g →
      dispatchKey s Key.arrowRight =
        ⟨s.model, some ⟨nextImage (imageCount g.handlerModel) g.selectedImage,
          g.handlerModel⟩⟩ ∧
      dispatchKey s Key.arrowLeft =
        ⟨s.model, some ⟨previousImage (imageCount g.handlerModel)
          g.selectedImage, g.handlerModel⟩⟩) ∧
    (∀ s g r, s.model.isSome = true → s.gallery = some g →
      ((fetchEvent s r).1).gallery = some g) ∧
    (dispatchKey ⟨some modelX, some ⟨some 0, modelABC⟩⟩ Key.arrowRight
        = ⟨some modelX, some ⟨some 1, modelABC⟩⟩ ∧
      clickNextButton ⟨some modelX, some ⟨some 0, modelABC⟩⟩
        = ⟨some modelX, some ⟨some 0, modelABC⟩⟩ ∧
      dispatchKey ⟨some modelX, some ⟨some 0, modelABC⟩⟩ Key.arrowRight
        ≠ clickNextButton ⟨some modelX, some ⟨some 0, modelABC⟩⟩) := by
  refine ⟨?_, ?_, by decide⟩
  · rintro ⟨mo, ga⟩ g hg
    dsimp only at hg
    subst hg
    exact ⟨rfl, rfl⟩
  · rintro ⟨mo, ga⟩ g r hms hg
    dsimp only at hms hg
    subst hg
    obtain ⟨m, rfl⟩ := Option.isSome_iff_exists.mp hms
    show (reconcile ⟨(getModels (some m) r).1, some g⟩).gallery = some g
    exact reconcile_gallery_of_isSome (getModels_isSome m r)

theorem keydown_uses_mount_time_count_witness :
    dispatchKey ⟨some modelX, some ⟨some 2, modelABC⟩⟩ Key.arrowRight
      = ⟨some modelX, some ⟨nextImage (imageCount modelABC) (some 2),
          modelABC⟩⟩ ∧
    ((fetchEvent ⟨some modelABC, some ⟨some 2, modelABC⟩⟩
        (FetchResult.response 200 (some modelX))).1).gallery
      = some ⟨some 2, modelABC⟩ :=
  ⟨(keydown_uses_mount_time_count.1 _ _ rfl).1,
    keydown_uses_mount_time_count.2.1 _ _ _ rfl rfl⟩

end ModelVault
